import Mathlib

/-!
Verification of the 74HC4046 PLL loop scripts
(`simulation/74hc4046/loop.py` and `simulation/74hc4046/loop_filter.py`).

The scripts are shallowly embedded over the real numbers: Python floats
become `ℝ`, the two-element resistor list `r` becomes a pair `ℝ × ℝ`, the
one-element capacitor list `c` becomes a scalar, and the printed console
output becomes a list of `PrintedValue` records.
-/

noncomputable section

/-- State of the `HC4046` class from `loop.py`.  The Python attribute
`r` is the list `[r.1, r.2]` and `c` is the one-element list `[c]`. -/
structure HC4046 where
  k_vco : ℝ
  k_pd : ℝ
  k_n : ℝ
  r : ℝ × ℝ
  c : ℝ

/-- Field values assigned by `HC4046.__init__` before any parameters are set. -/
def HC4046.init : HC4046 :=
  ⟨1.0, 1.0, 1.0, (1.0, 1.0), 1.0⟩

/-- The relevant entries of the JSON parameter dictionary `parameters.json`:
`k_vco` is `parameters["S Parameters"]["k_vco"]`, the `phase_detector`,
`supply_voltage`, `input_frequency` and `output_frequency` fields are the
corresponding entries of `parameters["Operating Conditions"]`, `loop_filter_r`
and `loop_filter_c` are `parameters["Loop Filter"]["R"]` and `["C"]`, and the
two `design_` fields are `parameters["Design"]["Natural Frequency"]` and
`["Damping Factor"]`. -/
structure Parameters where
  k_vco : ℝ
  phase_detector : String
  supply_voltage : ℝ
  input_frequency : ℝ
  output_frequency : ℝ
  loop_filter_r : ℝ × ℝ
  loop_filter_c : ℝ
  design_natural_frequency : ℝ
  design_damping_factor : ℝ

/-- Embedding of `HC4046.set_parameters`.  The Python `match` statement on
the phase-detector string has cases `"I"` and `"II" | "III"` and no wildcard,
so any other string leaves `k_pd` untouched. -/
def HC4046.set_parameters (s : HC4046) (p : Parameters) : HC4046 :=
  { k_vco := p.k_vco
    k_pd :=
      match p.phase_detector with
      | "I" => p.supply_voltage / Real.pi
      | "II" | "III" => p.supply_voltage / (2 * Real.pi)
      | _ => s.k_pd
    k_n := p.input_frequency / p.output_frequency
    r := p.loop_filter_r
    c := p.loop_filter_c }

/-- The constructor call `HC4046(parameters)`: default initialisation followed
by `set_parameters`. -/
def HC4046.ofParams (p : Parameters) : HC4046 :=
  HC4046.init.set_parameters p

/-- Embedding of the `HC4046.tau` property:
`[self.r[0] * self.c[0], self.r[1] * self.c[0]]`. -/
def HC4046.tau (s : HC4046) : ℝ × ℝ :=
  (s.r.1 * s.c, s.r.2 * s.c)

/-- Embedding of the `HC4046.natural_frequency` property:
`np.sqrt((k_vco * k_pd * k_n) / (tau[0] + tau[1]))`. -/
def HC4046.natural_frequency (s : HC4046) : ℝ :=
  Real.sqrt ((s.k_vco * s.k_pd * s.k_n) / (s.tau.1 + s.tau.2))

/-- Embedding of the `HC4046.damping_factor` property:
`(natural_frequency / 2) * (tau[1] + 1 / (k_vco * k_pd * k_n))`. -/
def HC4046.damping_factor (s : HC4046) : ℝ :=
  (s.natural_frequency / 2) * (s.tau.2 + 1 / (s.k_vco * s.k_pd * s.k_n))

/-- Embedding of `HC4046.get_transfer_function`: the pair of the numerator
and denominator coefficient lists handed to `signal.TransferFunction`. -/
def HC4046.get_transfer_function (s : HC4046) : List ℝ × List ℝ :=
  ([s.k_vco * s.k_pd * (s.tau.2 / (s.tau.1 + s.tau.2)),
    s.k_vco * s.k_pd * (s.tau.2 / (s.tau.1 + s.tau.2)) / s.tau.2],
   [1,
    (1 + s.k_n * s.k_pd * s.k_vco * s.tau.2) / (s.tau.1 + s.tau.2),
    (s.k_n * s.k_pd * s.k_vco) / (s.tau.1 + s.tau.2)])

/-- Embedding of the inner `residuals` function of `design` in `loop.py`:
it overwrites `pll.r` with the candidate `x`, converts the target frequency
from Hz to rad/s, and returns the two residuals. -/
def residuals (p : Parameters) (pll : HC4046) (x : ℝ × ℝ) : ℝ × ℝ :=
  let pll' : HC4046 := { pll with r := x }
  let target_frequency := p.design_natural_frequency * (2 * Real.pi)
  (pll'.natural_frequency - target_frequency,
   pll'.damping_factor - p.design_damping_factor)

/-- Claim C1: for every HC4046 state with positive resistor and capacitor values
the derived natural frequency is `sqrt(K / (tau1 + tau2))` and the derived
damping factor is `(natural_frequency / 2) * (tau2 + 1 / K)`, where
`K = k_vco * k_pd * k_n`, `tau1 = r[0] * c[0]` and `tau2 = r[1] * c[0]`. -/
theorem natural_frequency_damping_closed_form (s : HC4046)
    (hr1 : 0 < s.r.1) (hr2 : 0 < s.r.2) (hc : 0 < s.c) :
    s.natural_frequency =
      Real.sqrt ((s.k_vco * s.k_pd * s.k_n) / (s.r.1 * s.c + s.r.2 * s.c)) ∧
    s.damping_factor =
      (s.natural_frequency / 2) *
        (s.r.2 * s.c + 1 / (s.k_vco * s.k_pd * s.k_n)) := by
  constructor
  · rfl
  · rfl

/-- Witness for `natural_frequency_damping_closed_form` at the default
state, whose resistor and capacitor values are all `1`. -/
theorem natural_frequency_damping_closed_form_witness :
    0 < HC4046.init.r.1 ∧ 0 < HC4046.init.r.2 ∧ 0 < HC4046.init.c ∧
    (HC4046.init.natural_frequency =
      Real.sqrt ((HC4046.init.k_vco * HC4046.init.k_pd * HC4046.init.k_n) /
        (HC4046.init.r.1 * HC4046.init.c + HC4046.init.r.2 * HC4046.init.c)) ∧
    HC4046.init.damping_factor =
      (HC4046.init.natural_frequency / 2) *
        (HC4046.init.r.2 * HC4046.init.c +
          1 / (HC4046.init.k_vco * HC4046.init.k_pd * HC4046.init.k_n))) :=
  ⟨by norm_num [HC4046.init], by norm_num [HC4046.init], by norm_num [HC4046.init],
   natural_frequency_damping_closed_form HC4046.init
     (by norm_num [HC4046.init]) (by norm_num [HC4046.init])
     (by norm_num [HC4046.init])⟩

/-- Claim C2: a resistor pair `x` is a zero of the residual vector of `design`
exactly when, with `pll.r` set to `x`, the natural frequency equals `2π`
times the configured design natural frequency and the damping factor equals
the configured design damping factor. -/
theorem residuals_zero_iff_targets (p : Parameters) (pll : HC4046)
    (x : ℝ × ℝ) :
    residuals p pll x = (0, 0) ↔
      (HC4046.natural_frequency { pll with r := x } =
        2 * Real.pi * p.design_natural_frequency ∧
       HC4046.damping_factor { pll with r := x } =
        p.design_damping_factor) := by
  unfold residuals
  rw [Prod.ext_iff]
  simp only [sub_eq_zero]
  constructor
  · rintro ⟨h1, h2⟩
    exact ⟨by rw [h1]; ring, h2⟩
  · rintro ⟨h1, h2⟩
    exact ⟨by rw [h1]; ring, h2⟩

/-- A state with positive resistor and capacitor values but a negative VCO
gain.  The loop gain `K = k_vco * k_pd * k_n` is negative here, so
`np.sqrt(K / (tau1 + tau2))` is not a real number (`nan` in the script),
and the denominator of the transfer function is not `[1, 2ζωₙ, ωₙ²]`. -/
def pllNegativeGain : HC4046 :=
  ⟨-1.0, 1.0, 1.0, (1.0, 1.0), 1.0⟩

/-- Counterexample to C3 as stated: positivity of the resistor and capacitor
values alone does not make the denominator of `get_transfer_function` equal
to `[1, 2 * damping_factor * natural_frequency, natural_frequency ^ 2]`; a
negative loop gain breaks the identity. -/
theorem transfer_function_denominator_counterexample :
    0 < pllNegativeGain.r.1 ∧ 0 < pllNegativeGain.r.2 ∧
    0 < pllNegativeGain.c ∧
    pllNegativeGain.get_transfer_function.2 ≠
      [1, 2 * pllNegativeGain.damping_factor * pllNegativeGain.natural_frequency,
       pllNegativeGain.natural_frequency ^ 2] := by
  have hnf : pllNegativeGain.natural_frequency = 0 := by
    rw [HC4046.natural_frequency, Real.sqrt_eq_zero']
    norm_num [pllNegativeGain, HC4046.tau]
  refine ⟨by norm_num [pllNegativeGain], by norm_num [pllNegativeGain],
    by norm_num [pllNegativeGain], ?_⟩
  intro h
  rw [HC4046.get_transfer_function] at h
  simp only [List.cons.injEq] at h
  have h3 := h.2.2.1
  rw [hnf] at h3
  norm_num [pllNegativeGain, HC4046.tau] at h3

/-- Claim C3 (amended): for every HC4046 state with positive resistor and
capacitor values and positive loop gain `K = k_vco * k_pd * k_n`, the
denominator polynomial of `get_transfer_function` equals
`[1, 2 * damping_factor * natural_frequency, natural_frequency ^ 2]`. -/
theorem transfer_function_denominator_standard_form (s : HC4046)
    (hr1 : 0 < s.r.1) (hr2 : 0 < s.r.2) (hc : 0 < s.c)
    (hK : 0 < s.k_vco * s.k_pd * s.k_n) :
    s.get_transfer_function.2 =
      [1, 2 * s.damping_factor * s.natural_frequency,
       s.natural_frequency ^ 2] := by
  have htau : 0 < s.tau.1 + s.tau.2 := by
    rw [HC4046.tau]
    exact add_pos (mul_pos hr1 hc) (mul_pos hr2 hc)
  have hKne : s.k_vco * s.k_pd * s.k_n ≠ 0 := ne_of_gt hK
  have hsq : s.natural_frequency ^ 2 =
      (s.k_vco * s.k_pd * s.k_n) / (s.tau.1 + s.tau.2) := by
    rw [HC4046.natural_frequency]
    exact Real.sq_sqrt (le_of_lt (div_pos hK htau))
  have hmid : 2 * s.damping_factor * s.natural_frequency =
      (s.k_vco * s.k_pd * s.k_n) / (s.tau.1 + s.tau.2) *
        (s.tau.2 + 1 / (s.k_vco * s.k_pd * s.k_n)) := by
    rw [HC4046.damping_factor, ← hsq]
    ring
  rw [HC4046.get_transfer_function, hmid, hsq]
  have htne : s.tau.1 + s.tau.2 ≠ 0 := ne_of_gt htau
  simp only [List.cons.injEq, and_true, true_and]
  constructor
  · field_simp
    ring
  · ring

/-- Witness for `transfer_function_denominator_standard_form` at the default
state, whose gains, resistors and capacitor are all `1`. -/
theorem transfer_function_denominator_standard_form_witness :
    0 < HC4046.init.r.1 ∧ 0 < HC4046.init.r.2 ∧ 0 < HC4046.init.c ∧
    0 < HC4046.init.k_vco * HC4046.init.k_pd * HC4046.init.k_n ∧
    HC4046.init.get_transfer_function.2 =
      [1, 2 * HC4046.init.damping_factor * HC4046.init.natural_frequency,
       HC4046.init.natural_frequency ^ 2] :=
  ⟨by norm_num [HC4046.init], by norm_num [HC4046.init],
   by norm_num [HC4046.init], by norm_num [HC4046.init],
   transfer_function_denominator_standard_form HC4046.init
     (by norm_num [HC4046.init]) (by norm_num [HC4046.init])
     (by norm_num [HC4046.init]) (by norm_num [HC4046.init])⟩

/-- A line produced by `print_value(value, name, unit)`. -/
structure PrintedValue where
  name : String
  value : ℝ
  unit : String

/-- Embedding of the `analyze` mode of `loop.py`: it builds the PLL from the
parameters and prints natural frequency (kHz), damping factor, the loop
filter 3 dB bandwidth `w_3db = 1 / (tau[0] + tau[1])` (kHz) and the passband
gain `20 * np.log(tau[1] / (tau[0] + tau[1]))` (labelled dB, but computed
with the natural logarithm). -/
def analyze (p : Parameters) : List PrintedValue :=
  let pll := HC4046.ofParams p
  [⟨"Natural Frequency", 1e-3 * pll.natural_frequency / (2 * Real.pi), "kHz"⟩,
   ⟨"Damping Factor", pll.damping_factor, "-"⟩,
   ⟨"3 dB Bandwidth", 1e-3 * (1 / (pll.tau.1 + pll.tau.2)) / (2 * Real.pi), "kHz"⟩,
   ⟨"Passband Gain", 20 * Real.log (pll.tau.2 / (pll.tau.1 + pll.tau.2)), "dB"⟩]

/-- Embedding of the `design` mode of `loop.py`.  The call to
`scipy.optimize.least_squares` is external numerical code; it is modelled by
its observable effect on the script: the flag `success` (`result.success`)
and the resistor pair `rFit` that the optimizer's final evaluation of
`residuals` left in `pll.r`.  On success the script prints R1 and R2 in
kOhm, C in pF, then the natural frequency in kHz and the damping factor; on
failure it prints no numeric value and returns. -/
def design_output (p : Parameters) (success : Bool) (rFit : ℝ × ℝ) :
    List PrintedValue :=
  let pll : HC4046 := { HC4046.ofParams p with r := rFit }
  if success then
    [⟨"R1", pll.r.1 * 1e-3, "kOhm"⟩,
     ⟨"R2", pll.r.2 * 1e-3, "kOhm"⟩,
     ⟨"C", pll.c * 1e12, "pF"⟩,
     ⟨"Natural Frequency", 1e-3 * pll.natural_frequency / (2 * Real.pi), "kHz"⟩,
     ⟨"Damping Factor", pll.damping_factor, "-"⟩]
  else []

/-- Embedding of `design` from `loop_filter.py`: its body is `pass`, so it
reads nothing and prints nothing. -/
def loopFilter.design : List PrintedValue := []

/-- Embedding of `analyze` from `loop_filter.py`: its body is `pass`, so it
reads nothing and prints nothing. -/
def loopFilter.analyze : List PrintedValue := []

/-- Claim C4: evaluation of `loop_filter.py` at its two accepted modes.  Both mode
functions are `pass` stubs: they print nothing, take no parameters and the
script's main block never opens `parameters.json`, contradicting the claim
(and the module docstring) that they derive natural frequency and damping
factor from loaded parameters. -/
theorem loop_filter_modes_are_stubs :
    loopFilter.analyze = ([] : List PrintedValue) ∧
    loopFilter.design = ([] : List PrintedValue) :=
  ⟨rfl, rfl⟩

/-- Claim C7: the function `analyze` prints the natural frequency as
`1e-3 * natural_frequency / (2π)` in kHz and the damping factor unchanged,
and `design` on optimizer success prints the fitted resistors in kOhm, the
capacitor in pF, then those same two derived values. -/
theorem printed_values_match_derived (p : Parameters) (rFit : ℝ × ℝ) :
    (analyze p).take 2 =
      [⟨"Natural Frequency",
        1e-3 * (HC4046.ofParams p).natural_frequency / (2 * Real.pi), "kHz"⟩,
       ⟨"Damping Factor", (HC4046.ofParams p).damping_factor, "-"⟩] ∧
    design_output p true rFit =
      [⟨"R1", rFit.1 * 1e-3, "kOhm"⟩,
       ⟨"R2", rFit.2 * 1e-3, "kOhm"⟩,
       ⟨"C", (HC4046.ofParams p).c * 1e12, "pF"⟩,
       ⟨"Natural Frequency",
        1e-3 * HC4046.natural_frequency { HC4046.ofParams p with r := rFit } /
          (2 * Real.pi), "kHz"⟩,
       ⟨"Damping Factor",
        HC4046.damping_factor { HC4046.ofParams p with r := rFit }, "-"⟩] :=
  ⟨rfl, rfl⟩

/-- Claim C9: when the phase-detector string is none of "I", "II", "III", the
`match` in `set_parameters` has no applicable case, so `k_pd` keeps its old
value (the default `1.0` on a freshly constructed `HC4046`), while `k_vco`,
`k_n`, `r` and `c` are still set from the parameter dictionary. -/
theorem set_parameters_invalid_phase_detector (s : HC4046) (p : Parameters)
    (h1 : p.phase_detector ≠ "I") (h2 : p.phase_detector ≠ "II")
    (h3 : p.phase_detector ≠ "III") :
    (s.set_parameters p).k_pd = s.k_pd ∧
    (HC4046.ofParams p).k_pd = 1.0 ∧
    (s.set_parameters p).k_vco = p.k_vco ∧
    (s.set_parameters p).k_n = p.input_frequency / p.output_frequency ∧
    (s.set_parameters p).r = p.loop_filter_r ∧
    (s.set_parameters p).c = p.loop_filter_c := by
  have hpd : ∀ t : HC4046, (t.set_parameters p).k_pd = t.k_pd := by
    intro t
    rw [HC4046.set_parameters]
    split <;> simp_all
  exact ⟨hpd s, hpd HC4046.init, rfl, rfl, rfl, rfl⟩

/-- Witness for `set_parameters_invalid_phase_detector` with the unknown
phase-detector string "IV" on a state with non-default `k_pd`. -/
theorem set_parameters_invalid_phase_detector_witness :
    ("IV" ≠ "I" ∧ "IV" ≠ "II" ∧ "IV" ≠ "III") ∧
    (HC4046.set_parameters ⟨2.0, 3.0, 4.0, (5.0, 6.0), 7.0⟩
      ⟨8.0, "IV", 9.0, 10.0, 11.0, (12.0, 13.0), 14.0, 15.0, 16.0⟩).k_pd =
        (3.0 : ℝ) ∧
    (HC4046.ofParams
      ⟨8.0, "IV", 9.0, 10.0, 11.0, (12.0, 13.0), 14.0, 15.0, 16.0⟩).k_pd =
        (1.0 : ℝ) := by
  have h := set_parameters_invalid_phase_detector
    ⟨2.0, 3.0, 4.0, (5.0, 6.0), 7.0⟩
    ⟨8.0, "IV", 9.0, 10.0, 11.0, (12.0, 13.0), 14.0, 15.0, 16.0⟩
    (by decide) (by decide) (by decide)
  exact ⟨⟨by decide, by decide, by decide⟩, h.1, h.2.1⟩

/-- Claim C10: the function `analyze` prints the 3 dB bandwidth as
`1e-3 * (1 / (tau1 + tau2)) / (2π)` in kHz and the passband gain as
`20 * log(tau2 / (tau1 + tau2))` with the natural logarithm, labelled dB. -/
theorem analyze_bandwidth_and_passband_gain (p : Parameters)
    (h : 0 < (HC4046.ofParams p).tau.2 /
      ((HC4046.ofParams p).tau.1 + (HC4046.ofParams p).tau.2)) :
    (analyze p).getD 2 ⟨"", 0, ""⟩ =
      ⟨"3 dB Bandwidth",
       1e-3 * (1 / ((HC4046.ofParams p).tau.1 + (HC4046.ofParams p).tau.2)) /
         (2 * Real.pi), "kHz"⟩ ∧
    (analyze p).getD 3 ⟨"", 0, ""⟩ =
      ⟨"Passband Gain",
       20 * Real.log ((HC4046.ofParams p).tau.2 /
         ((HC4046.ofParams p).tau.1 + (HC4046.ofParams p).tau.2)), "dB"⟩ :=
  ⟨rfl, rfl⟩

/-- A small concrete parameter set used as witness input. -/
def exampleParams : Parameters :=
  ⟨1.0, "II", 1.0, 1.0, 1.0, (1.0, 1.0), 1.0, 1.0, 1.0⟩

/-- Witness for `analyze_bandwidth_and_passband_gain` on `exampleParams`,
whose time constants are `tau = (1, 1)`. -/
theorem analyze_bandwidth_and_passband_gain_witness :
    0 < (HC4046.ofParams exampleParams).tau.2 /
      ((HC4046.ofParams exampleParams).tau.1 +
        (HC4046.ofParams exampleParams).tau.2) ∧
    (analyze exampleParams).getD 3 ⟨"", 0, ""⟩ =
      ⟨"Passband Gain",
       20 * Real.log ((HC4046.ofParams exampleParams).tau.2 /
         ((HC4046.ofParams exampleParams).tau.1 +
           (HC4046.ofParams exampleParams).tau.2)), "dB"⟩ := by
  have hpos : 0 < (HC4046.ofParams exampleParams).tau.2 /
      ((HC4046.ofParams exampleParams).tau.1 +
        (HC4046.ofParams exampleParams).tau.2) := by
    norm_num [HC4046.ofParams, HC4046.set_parameters, HC4046.init,
      HC4046.tau, exampleParams]
  exact ⟨hpos, (analyze_bandwidth_and_passband_gain exampleParams hpos).2⟩

/-- Python exception kinds relevant to the mode dispatch: subscripting the
`locals()` dictionary with a missing key raises `KeyError`, while the
scripts' handlers are written for `NameError`. -/
inductive PyExc where
  | nameError : PyExc
  | keyError : PyExc
deriving DecidableEq

/-- Result of the try-block body `locals()[args.mode](...)`: either the
module-level function named by the string ran, or an exception was raised. -/
inductive PyResult where
  | ok : String → PyResult
  | exc : PyExc → PyResult
deriving DecidableEq

/-- Outcome of a script's main block: a mode function ran, the handler
printed the invalid-mode message, or an exception escaped uncaught. -/
inductive MainOutcome where
  | ran : String → MainOutcome
  | printedInvalid : String → MainOutcome
  | uncaught : PyExc → MainOutcome
deriving DecidableEq

/-- The `MODES` constant of `loop.py`. -/
def loop_MODES : List String :=
  ["analyze", "design", "get_kvco", "step"]

/-- The `MODES` constant of `loop_filter.py`. -/
def loop_filter_MODES : List String :=
  ["analyze", "design"]

/-- The module-level function names of `loop.py` visible to `locals()` in
its main block. -/
def loop_module_functions : List String :=
  ["print_value", "get_natural_frequency", "get_damping_factor",
   "design", "analyze", "get_kvco", "step"]

/-- The module-level function names of `loop_filter.py`. -/
def loop_filter_module_functions : List String :=
  ["design", "analyze"]

/-- Subscripting `locals()` with the mode name calls the named function if
it exists and raises `KeyError` if it does not. -/
def subscript_locals (names : List String) (mode : String) : PyResult :=
  if mode ∈ names then .ok mode else .exc .keyError

/-- The single `try`/`except NameError` wrapped around the mode dispatch in
both scripts: a `NameError` becomes the printed message
`Invalid execution mode <mode>.` (with the mode quoted), and every other
outcome passes through unchanged. -/
def run_with_handler (mode : String) : PyResult → MainOutcome
  | .ok f => .ran f
  | .exc .nameError =>
      .printedInvalid ("Invalid execution mode \x27" ++ mode ++ "\x27.")
  | .exc e => .uncaught e

/-- The main block of `loop.py` after the argument parser accepted `mode`. -/
def loop_main (mode : String) : MainOutcome :=
  run_with_handler mode (subscript_locals loop_module_functions mode)

/-- The main block of `loop_filter.py` after the argument parser accepted
`mode`. -/
def loop_filter_main (mode : String) : MainOutcome :=
  run_with_handler mode (subscript_locals loop_filter_module_functions mode)

/-- Claim C6: the only handler in either script catches exactly `NameError`,
turning it into the printed message `Invalid execution mode <mode>.`; every
other exception passes through uncaught, a successful call is returned
unchanged, and both main blocks are exactly this handler around the
dispatch. -/
theorem dispatch_handler_catches_only_nameError (mode f : String)
    (e : PyExc) (he : e ≠ PyExc.nameError) :
    run_with_handler mode (.exc .nameError) =
      .printedInvalid ("Invalid execution mode \x27" ++ mode ++ "\x27.") ∧
    run_with_handler mode (.exc e) = .uncaught e ∧
    run_with_handler mode (.ok f) = .ran f ∧
    loop_main mode =
      run_with_handler mode (subscript_locals loop_module_functions mode) ∧
    loop_filter_main mode =
      run_with_handler mode
        (subscript_locals loop_filter_module_functions mode) := by
  refine ⟨rfl, ?_, rfl, rfl, rfl⟩
  cases e
  · exact absurd rfl he
  · rfl

/-- Witness for `dispatch_handler_catches_only_nameError` at the mode string
"foo" and the exception `KeyError`. -/
theorem dispatch_handler_catches_only_nameError_witness :
    PyExc.keyError ≠ PyExc.nameError ∧
    run_with_handler "foo" (.exc .nameError) =
      .printedInvalid ("Invalid execution mode \x27foo\x27.") ∧
    run_with_handler "foo" (.exc .keyError) = .uncaught .keyError :=
  ⟨by decide,
   (dispatch_handler_catches_only_nameError "foo" "analyze" PyExc.keyError
     (by decide)).1,
   (dispatch_handler_catches_only_nameError "foo" "analyze" PyExc.keyError
     (by decide)).2.1⟩

/-- Claim C8: every accepted mode of both scripts names a module-level function,
so the dispatch succeeds and the invalid-mode error branch is unreachable
for accepted modes. -/
theorem accepted_modes_always_dispatch (mode : String) :
    (mode ∈ loop_MODES →
      mode ∈ loop_module_functions ∧ loop_main mode = .ran mode) ∧
    (mode ∈ loop_filter_MODES →
      mode ∈ loop_filter_module_functions ∧
        loop_filter_main mode = .ran mode) := by
  constructor
  · intro h
    simp only [loop_MODES, List.mem_cons, List.not_mem_nil, or_false] at h
    rcases h with h | h | h | h <;> subst h <;> exact ⟨by decide, by decide⟩
  · intro h
    simp only [loop_filter_MODES, List.mem_cons, List.not_mem_nil,
      or_false] at h
    rcases h with h | h <;> subst h <;> exact ⟨by decide, by decide⟩

/-- Witness for `accepted_modes_always_dispatch` at the mode "get_kvco" of
`loop.py` and the mode "design" of `loop_filter.py`. -/
theorem accepted_modes_always_dispatch_witness :
    ("get_kvco" ∈ loop_MODES ∧ loop_main "get_kvco" = .ran "get_kvco") ∧
    ("design" ∈ loop_filter_MODES ∧
      loop_filter_main "design" = .ran "design") :=
  ⟨⟨by decide, ((accepted_modes_always_dispatch "get_kvco").1 (by decide)).2⟩,
   ⟨by decide, ((accepted_modes_always_dispatch "design").2 (by decide)).2⟩⟩

/-- Embedding of `np.argmax` on a boolean array: the index of the first
`true` entry, and `0` when every entry is `false` (all entries then equal
the maximum value `false`, whose first occurrence is index `0`). -/
def np_argmax : List Bool → ℕ
  | [] => 0
  | true :: _ => 0
  | false :: l => if l.any id then np_argmax l + 1 else 0

/-- Embedding of `np.gradient(f, x)` for one-dimensional data with the
default `edge_order=1`: one-sided difference quotients at the two edges and
the three-point midpoint formula for possibly non-uniform spacing in the
interior.  Out-of-range accesses default to `0`; they never occur for the
index range used. -/
def np_gradient (f x : List ℝ) : List ℝ :=
  (List.range f.length).map (fun i =>
    if i = 0 then
      (f.getD 1 0 - f.getD 0 0) / (x.getD 1 0 - x.getD 0 0)
    else if i = f.length - 1 then
      (f.getD i 0 - f.getD (i - 1) 0) / (x.getD i 0 - x.getD (i - 1) 0)
    else
      ((x.getD i 0 - x.getD (i - 1) 0) ^ 2 * f.getD (i + 1) 0 +
          ((x.getD (i + 1) 0 - x.getD i 0) ^ 2 -
            (x.getD i 0 - x.getD (i - 1) 0) ^ 2) * f.getD i 0 -
          (x.getD (i + 1) 0 - x.getD i 0) ^ 2 * f.getD (i - 1) 0)
      /
      ((x.getD i 0 - x.getD (i - 1) 0) * (x.getD (i + 1) 0 - x.getD i 0) *
        ((x.getD (i + 1) 0 - x.getD i 0) + (x.getD i 0 - x.getD (i - 1) 0))))

/-- Embedding of the `get_kvco` mode of `loop.py` as a function of the rows
of `vco.csv` (first column voltage in V, second column frequency in kHz) and
the configured operating-conditions output frequency: scale the frequency
column from kHz to Hz, locate `np.argmax(frequency >= output_frequency)`,
take `np.gradient(frequency, voltage)` at that index and multiply by `2π`.
List indexing is total here with default `0`; the argmax index is always in
range for the nonempty CSV the script reads. -/
def get_kvco (rows : List (ℝ × ℝ)) (output_frequency : ℝ) : ℝ :=
  let voltage := rows.map Prod.fst
  let frequency := rows.map (fun row => row.2 * 1e3)
  let index := np_argmax (frequency.map (fun fr => decide (output_frequency ≤ fr)))
  let grad := np_gradient frequency voltage
  2 * Real.pi * grad.getD index 0

/-- The line printed by the `get_kvco` mode: the extracted constant scaled
by `1e-3`, labelled kHz/V. -/
def get_kvco_output (rows : List (ℝ × ℝ)) (output_frequency : ℝ) :
    List PrintedValue :=
  [⟨"k_vco", get_kvco rows output_frequency * 1e-3, "kHz/V"⟩]

/-- The boolean argmax returns the index of the first `true` entry. -/
theorem np_argmax_of_first_true (l : List Bool) (i : ℕ) (hi : i < l.length)
    (ht : l.getD i false = true)
    (hf : ∀ j, j < i → l.getD j false = false) :
    np_argmax l = i := by
  induction l generalizing i with
  | nil => simp at hi
  | cons b t ih =>
    cases b with
    | true =>
      cases i with
      | zero => rfl
      | succ n =>
        have h0 := hf 0 (Nat.succ_pos n)
        simp at h0
    | false =>
      cases i with
      | zero => simp at ht
      | succ n =>
        have hn : n < t.length := by simpa using hi
        have ht' : t.getD n false = true := by simpa using ht
        have hf' : ∀ j, j < n → t.getD j false = false := by
          intro j hj
          have := hf (j + 1) (by omega)
          simpa using this
        have hmem : (true : Bool) ∈ t := by
          rw [← ht', List.getD_eq_getElem _ _ hn]
          exact List.getElem_mem hn
        have hany : t.any id = true := by
          rw [List.any_eq_true]
          exact ⟨true, hmem, rfl⟩
        simp only [np_argmax, hany, if_true]
        rw [ih n hn ht' hf']

/-- The boolean argmax returns `0` when every entry is `false`. -/
theorem np_argmax_of_all_false (l : List Bool)
    (hf : ∀ j, j < l.length → l.getD j false = false) :
    np_argmax l = 0 := by
  cases l with
  | nil => rfl
  | cons b t =>
    have hb : b = false := by simpa using hf 0 (by simp)
    subst hb
    have hany : t.any id = false := by
      rw [Bool.eq_false_iff]
      intro hc
      rw [List.any_eq_true] at hc
      obtain ⟨x, hx, hxid⟩ := hc
      have hxtrue : x = true := by simpa using hxid
      subst hxtrue
      obtain ⟨j, hj, hget⟩ := List.mem_iff_getElem.mp hx
      have hj' := hf (j + 1) (by simpa using Nat.succ_lt_succ hj)
      rw [List.getD_cons_succ, List.getD_eq_getElem _ _ hj, hget] at hj'
      exact Bool.noConfusion hj'
    simp [np_argmax, hany]

/-- Claim C5: the k_vco constant extracted by `get_kvco` equals `2π` times the
finite-difference gradient of the Hz-scaled frequency column with respect to
the voltage column, evaluated at the index of the first row whose scaled
frequency reaches the configured output frequency (at index `0` when no row
qualifies), and it is printed scaled by `1e-3` with unit kHz/V. -/
theorem get_kvco_gradient_at_first_qualifying_row
    (rows : List (ℝ × ℝ)) (f_out : ℝ) :
    (∀ i, i < rows.length →
      f_out ≤ (rows.getD i (0, 0)).2 * 1e3 →
      (∀ j, j < i → ¬ f_out ≤ (rows.getD j (0, 0)).2 * 1e3) →
      get_kvco rows f_out =
        2 * Real.pi *
          (np_gradient (rows.map (fun row => row.2 * 1e3))
            (rows.map Prod.fst)).getD i 0) ∧
    ((∀ j, j < rows.length → ¬ f_out ≤ (rows.getD j (0, 0)).2 * 1e3) →
      get_kvco rows f_out =
        2 * Real.pi *
          (np_gradient (rows.map (fun row => row.2 * 1e3))
            (rows.map Prod.fst)).getD 0 0) ∧
    get_kvco_output rows f_out =
      [⟨"k_vco", get_kvco rows f_out * 1e-3, "kHz/V"⟩] := by
  have hlen :
      ((rows.map (fun row => row.2 * 1e3)).map
        (fun fr => decide (f_out ≤ fr))).length = rows.length := by
    simp
  have hb : ∀ j, j < rows.length →
      ((rows.map (fun row => row.2 * 1e3)).map
        (fun fr => decide (f_out ≤ fr))).getD j false =
        decide (f_out ≤ (rows.getD j (0, 0)).2 * 1e3) := by
    intro j hj
    have hj2 : j < ((rows.map (fun row => row.2 * 1e3)).map
        (fun fr => decide (f_out ≤ fr))).length := by
      rw [hlen]; exact hj
    rw [List.getD_eq_getElem _ _ hj2, List.getD_eq_getElem _ _ hj]
    simp
  refine ⟨?_, ?_, rfl⟩
  · intro i hi hqual hfirst
    have hidx : np_argmax ((rows.map (fun row => row.2 * 1e3)).map
        (fun fr => decide (f_out ≤ fr))) = i := by
      refine np_argmax_of_first_true _ i (by rw [hlen]; exact hi) ?_ ?_
      · rw [hb i hi]
        exact decide_eq_true hqual
      · intro j hj
        rw [hb j (lt_trans hj hi)]
        exact decide_eq_false (hfirst j hj)
    simp only [get_kvco, hidx]
  · intro hnone
    have hidx : np_argmax ((rows.map (fun row => row.2 * 1e3)).map
        (fun fr => decide (f_out ≤ fr))) = 0 := by
      refine np_argmax_of_all_false _ ?_
      intro j hj
      rw [hlen] at hj
      rw [hb j hj]
      exact decide_eq_false (hnone j hj)
    simp only [get_kvco, hidx]

/-- Example CSV rows used as witness input: voltages `0, 1` and measured
frequencies `1` and `2` kHz. -/
def rowsExample : List (ℝ × ℝ) :=
  [(0, 1), (1, 2)]

/-- Witness for `get_kvco_gradient_at_first_qualifying_row` on
`rowsExample` with an output frequency of `5000` Hz, which no row reaches,
so the gradient is taken at index `0`. -/
theorem get_kvco_gradient_at_first_qualifying_row_witness :
    (∀ j, j < rowsExample.length →
      ¬ (5000 : ℝ) ≤ (rowsExample.getD j (0, 0)).2 * 1e3) ∧
    get_kvco rowsExample 5000 =
      2 * Real.pi *
        (np_gradient (rowsExample.map (fun row => row.2 * 1e3))
          (rowsExample.map Prod.fst)).getD 0 0 := by
  have hall : ∀ j, j < rowsExample.length →
      ¬ (5000 : ℝ) ≤ (rowsExample.getD j (0, 0)).2 * 1e3 := by
    intro j hj
    simp only [rowsExample, List.length_cons, List.length_nil] at hj
    interval_cases j <;> norm_num [rowsExample]
  exact ⟨hall,
    (get_kvco_gradient_at_first_qualifying_row rowsExample 5000).2.1 hall⟩

end
